import Mathlib

/-!
Verification development for the Pella auto-renew automation script
(`pella_checkin.py`).  The stateful Selenium parts are embedded by
abstracting the browser as an oracle function; the pure parts (duration
parsing, reconciliation arithmetic, report aggregation, notification
formatting) are translated directly.  Python floats are modelled as exact
rationals (ℚ); every value the theorems touch is dyadic and small, so the
model agrees with IEEE doubles there.  Python `re.search` is modelled for
the five concrete patterns the script uses: leftmost match start, greedy
digit/whitespace runs (the character classes of adjacent pieces are
disjoint in all five patterns, so greedy scanning without backtracking is
exactly the regex semantics).
-/

namespace Pella

/-- ASCII whitespace, the characters Python's `\s` matches in these patterns. -/
def isSpaceChar (c : Char) : Bool :=
  c = ' ' || c = '\t' || c = '\n' || c = '\r' || c = '\x0b' || c = '\x0c'

/-- Numeric value of a run of decimal digits, as `int(...)` does. -/
def digitsToNat (ds : List Char) : Nat :=
  ds.foldl (fun a c => a * 10 + (c.toNat - 48)) 0

/-- Match a case-sensitive literal at the head of the text, returning the rest. -/
def matchLit : List Char → List Char → Option (List Char)
  | [], cs => some cs
  | _ :: _, [] => none
  | p :: ps, c :: cs => if p = c then matchLit ps cs else none

/-- Match a case-insensitive literal (`re.IGNORECASE`) at the head of the text. -/
def matchLitCI : List Char → List Char → Option (List Char)
  | [], cs => some cs
  | _ :: _, [] => none
  | p :: ps, c :: cs => if p.toLower = c.toLower then matchLitCI ps cs else none

/-- Greedy `(\d+)`: one or more digits at the head, returning their value. -/
def matchDigits (cs : List Char) : Option (Nat × List Char) :=
  let p := cs.span (fun c => c.isDigit)
  if p.1.isEmpty then none else some (digitsToNat p.1, p.2)

/-- Greedy optional letter (`s?` under IGNORECASE). -/
def matchOptCI (p : Char) : List Char → List Char
  | [] => []
  | c :: cs => if p.toLower = c.toLower then cs else c :: cs

/-- Pattern 1 at a fixed position: `Your server expires in\s*(\d+)D\s*(\d+)H\s*(\d+)M`
(case-sensitive). -/
def pat1At (cs : List Char) : Option (Nat × Nat × Nat) := do
  let cs ← matchLit (("Your server expires in").toList) cs
  let cs := cs.dropWhile isSpaceChar
  let (d, cs) ← matchDigits cs
  let cs ← matchLit ['D'] cs
  let cs := cs.dropWhile isSpaceChar
  let (h, cs) ← matchDigits cs
  let cs ← matchLit ['H'] cs
  let cs := cs.dropWhile isSpaceChar
  let (m, cs) ← matchDigits cs
  let _ ← matchLit ['M'] cs
  pure (d, h, m)

/-- Pattern 2 at a fixed position: `Expires in\s*(\d+)H\s*(\d+)M`, IGNORECASE. -/
def pat2At (cs : List Char) : Option (Nat × Nat) := do
  let cs ← matchLitCI (("Expires in").toList) cs
  let cs := cs.dropWhile isSpaceChar
  let (h, cs) ← matchDigits cs
  let cs ← matchLitCI ['H'] cs
  let cs := cs.dropWhile isSpaceChar
  let (m, cs) ← matchDigits cs
  let _ ← matchLitCI ['M'] cs
  pure (h, m)

/-- Pattern 3 at a fixed position:
`expiring in\s*(\d+)\s*Hours?\s*(\d+)\s*Minutes?`, IGNORECASE. -/
def pat3At (cs : List Char) : Option (Nat × Nat) := do
  let cs ← matchLitCI (("expiring in").toList) cs
  let cs := cs.dropWhile isSpaceChar
  let (h, cs) ← matchDigits cs
  let cs := cs.dropWhile isSpaceChar
  let cs ← matchLitCI (("Hour").toList) cs
  let cs := matchOptCI 's' cs
  let cs := cs.dropWhile isSpaceChar
  let (m, cs) ← matchDigits cs
  let cs := cs.dropWhile isSpaceChar
  let cs ← matchLitCI (("Minute").toList) cs
  let _ := matchOptCI 's' cs
  pure (h, m)

/-- Pattern 4 at a fixed position: `Expires in\s*(\d+)D\s*(\d+)H\s*(\d+)M`, IGNORECASE. -/
def pat4At (cs : List Char) : Option (Nat × Nat × Nat) := do
  let cs ← matchLitCI (("Expires in").toList) cs
  let cs := cs.dropWhile isSpaceChar
  let (d, cs) ← matchDigits cs
  let cs ← matchLitCI ['D'] cs
  let cs := cs.dropWhile isSpaceChar
  let (h, cs) ← matchDigits cs
  let cs ← matchLitCI ['H'] cs
  let cs := cs.dropWhile isSpaceChar
  let (m, cs) ← matchDigits cs
  let _ ← matchLitCI ['M'] cs
  pure (d, h, m)

/-- Pattern 5 at a fixed position: `(?:expires|expiring) in\s*(\d+)D`, IGNORECASE. -/
def pat5At (cs : List Char) : Option Nat := do
  let cs ←
    match matchLitCI (("expires").toList) cs with
    | some r => some r
    | none => matchLitCI (("expiring").toList) cs
  let cs ← matchLitCI ((" in").toList) cs
  let cs := cs.dropWhile isSpaceChar
  let (d, cs) ← matchDigits cs
  let _ ← matchLitCI ['D'] cs
  pure d

/-- `re.search`: try the pattern at each start position, left to right,
returning the first (leftmost) match's groups. -/
def searchPat {α : Type} (p : List Char → Option α) : List Char → Option α
  | [] => p []
  | c :: cs =>
    match p (c :: cs) with
    | some r => some r
    | none => searchPat p cs

/-- The pattern cascade of `extract_expiry_days` (source lines 166–209):
`(found, days_int, hours_int, minutes_int)` after the five `re.search`
attempts, first match winning in the documented order. -/
def scanPatterns (cs : List Char) : Bool × Nat × Nat × Nat :=
  match searchPat pat1At cs with
  | some (d, h, m) => (true, d, h, m)
  | none =>
    match searchPat pat2At cs with
    | some (h, m) => (true, 0, h, m)
    | none =>
      match searchPat pat3At cs with
      | some (h, m) => (true, 0, h, m)
      | none =>
        match searchPat pat4At cs with
        | some (d, h, m) => (true, d, h, m)
        | none =>
          match searchPat pat5At cs with
          | some d => (true, d, 0, 0)
          | none => (false, 0, 0, 0)

/-- `PellaAutoRenew.extract_expiry_days` (source lines 164–227) on the page
text as a character list: detail string and total fractional days. -/
def extractExpiryCore (cs : List Char) : String × ℚ :=
  match scanPatterns cs with
  | (true, d, h, m) =>
    let parts : List String :=
      (if d > 0 then [toString d ++ " 天"] else []) ++
      (if h > 0 then [toString h ++ " 小时"] else []) ++
      (if m > 0 then [toString m ++ " 分钟"] else [])
    let detailedString := if parts = [] then "0 分钟" else String.intercalate " " parts
    (detailedString, (d : ℚ) + (h : ℚ) / 24 + (m : ℚ) / (24 * 60))
  | (false, _, _, _) => ("无法提取", -1)

/-- `PellaAutoRenew.extract_expiry_days` on a page-source string. -/
def extract_expiry_days (s : String) : String × ℚ :=
  extractExpiryCore s.toList

example : scanPatterns (("Your server expires in 14D 5H 30M").toList) = (true, 14, 5, 30) := by
  decide

example : extract_expiry_days ("Your server expires in 14D 5H 30M") =
    ("14 天 5 小时 30 分钟", 14 + 5 / 24 + 30 / 1440) := by
  have h : scanPatterns (("Your server expires in 14D 5H 30M").toList) = (true, 14, 5, 30) := by
    decide
  refine Prod.ext ?_ ?_
  · show (extractExpiryCore _).1 = _
    unfold extractExpiryCore
    rw [h]
    decide
  · show (extractExpiryCore _).2 = _
    unfold extractExpiryCore
    rw [h]
    norm_num

example : extract_expiry_days ("blah Expires in 30H 3M blah") =
    ("30 小时 3 分钟", 30 / 24 + 3 / 1440) := by
  have h : scanPatterns (("blah Expires in 30H 3M blah").toList) = (true, 0, 30, 3) := by
    decide
  refine Prod.ext ?_ ?_
  · show (extractExpiryCore _).1 = _
    unfold extractExpiryCore
    rw [h]
    decide
  · show (extractExpiryCore _).2 = _
    unfold extractExpiryCore
    rw [h]
    norm_num

/-- Python's built-in `round` on an exact value: nearest integer, ties to even. -/
def pyRound (q : ℚ) : ℤ :=
  let f : ℤ := ⌊q⌋
  if q - (f : ℚ) < 1 / 2 then f
  else if (1 : ℚ) / 2 < q - (f : ℚ) then f + 1
  else if f % 2 = 0 then f else f + 1

/-- Post-renewal reconciliation of `PellaAutoRenew.renew_server`
(source lines 685–702): compare the fresh snapshot against the initial one
and produce the result message.  `initialValue`/`finalValue` are the
`totalDays` floats, `initialDetails`/`finalDetails` the detail strings. -/
def renewReconcile (initialDetails : String) (initialValue : ℚ)
    (finalDetails : String) (finalValue : ℚ) : String :=
  if initialValue < finalValue then
    let daysAdded := finalValue - initialValue
    let addedSeconds := pyRound (daysAdded * 24 * 3600)
    let addedDays := addedSeconds.fdiv (24 * 3600)
    let addedHours := (addedSeconds.fmod (24 * 3600)).fdiv 3600
    let addedMinutes := (addedSeconds.fmod 3600).fdiv 60
    let addedString :=
      toString addedDays ++ " 天 " ++ toString addedHours ++ " 小时 " ++
        toString addedMinutes ++ " 分钟"
    "✅ 续期成功! 初始 " ++ initialDetails ++ " -> 最终 " ++ finalDetails ++
      " (共续期 " ++ addedString ++ ")"
  else if finalValue = initialValue then
    "⚠️ 续期操作完成，但天数未增加 (" ++ finalDetails ++ ")。"
  else
    "❌ 续期操作完成，但天数不升反降!"

/-- Selenium locator strategies used by the script. -/
inductive LocBy
  | cssSelector
  | xpath
deriving DecidableEq

/-- A locator candidate: strategy plus selector string. -/
abbrev Selector : Type := LocBy × String

/-- `PellaAutoRenew.find_element_with_multiple_selectors` (source lines
149–162), with the browser abstracted as `resolve : Selector → Nat → Option α`
(`WebDriverWait(driver, timeout).until(presence_of_element_located(sel))`,
`none` for a `TimeoutException`).  Besides the found element it returns the
trace of attempts actually made, each with the timeout it was given. -/
def find_element_with_multiple_selectors {α : Type}
    (resolve : Selector → Nat → Option α) (selectors : List Selector)
    (timeout : Nat) : Option α × List (Selector × Nat) :=
  match selectors with
  | [] => (none, [])
  | s :: rest =>
    match resolve s timeout with
    | some e => (some e, [(s, timeout)])
    | none =>
      let r := find_element_with_multiple_selectors resolve rest timeout
      (r.1, (s, timeout) :: r.2)

/-- Exception raised by Selenium's `WebDriverWait.until` when the deadline
elapses without the condition holding. -/
inductive WaitError
  | timeout
deriving DecidableEq

/-- Selenium's `WebDriverWait(driver, timeout).until(cond)`, time-abstracted:
the condition is an oracle over poll ticks `0, 1, …, timeout`; the first
tick at which it holds is returned, and if none exists the call raises
`TimeoutException` (modelled as `Except.error`). -/
def webDriverWaitUntil (cond : Nat → Bool) (timeout : Nat) : Except WaitError Nat :=
  match (List.range (timeout + 1)).find? cond with
  | some t => Except.ok t
  | none => Except.error WaitError.timeout

/-- `PellaAutoRenew.wait_for_element_clickable` (source lines 123–127): a bare
`WebDriverWait.until`, with no handler — a timeout propagates as an
exception to the caller. -/
def wait_for_element_clickable (cond : Nat → Bool) (timeout : Nat) :
    Except WaitError Nat :=
  webDriverWaitUntil cond timeout

/-- `PellaAutoRenew.wait_for_element_present` (source lines 129–133): same
shape, no handler. -/
def wait_for_element_present (cond : Nat → Bool) (timeout : Nat) :
    Except WaitError Nat :=
  webDriverWaitUntil cond timeout

/-- The post-email-submit URL-change wait in `login` (source lines 290–295):
`WebDriverWait(...).until(EC.url_changes(initial_url))` wrapped in
`try/except TimeoutException`, so a timeout is converted into the normal
outcome `false` (a logged warning) instead of propagating. -/
def waitUrlChangeAfterEmailSubmit (cond : Nat → Bool) (timeout : Nat) : Bool :=
  match webDriverWaitUntil cond timeout with
  | Except.ok _ => true
  | Except.error _ => false

/-- Substring test on character lists, modelling Python's `needle in hay`. -/
def containsSub (needle : List Char) : List Char → Bool
  | [] => needle.isEmpty
  | c :: cs => needle.isPrefixOf (c :: cs) || containsSub needle cs

/-- Python's `needle in hay` on strings. -/
def strContains (needle hay : String) : Bool :=
  containsSub needle.toList hay.toList

/-- A possibly-displayed error element on the login page, as the step-5
timeout handler sees it (`is_displayed()` and `.text`). -/
structure ErrorElem where
  displayed : Bool
  text : String

/-- The four terminal outcomes of the login step-5 timeout handler. -/
inductive LoginTimeoutOutcome
  | errorMessage (msg : String)
  | googleOAuthDetected (msg : String)
  | stillOnLoginPage (msg : String)
  | softSuccess
deriving DecidableEq

/-- The `except TimeoutException` branch of `PellaAutoRenew.login` step 5
(source lines 444–476): first look for a visible error element and fail with
its text; otherwise inspect the current URL — `accounts.google.com`
substring → unsupported-OAuth failure; `login` substring → still-on-login
failure; anything else → soft success (`return True`).  `errEl` is the
result of the error-locator chain (`none` when it timed out). -/
def handleLoginTimeout (errEl : Option ErrorElem) (currentUrl : String) :
    LoginTimeoutOutcome :=
  let urlCheck :=
    if strContains ("accounts.google.com") currentUrl then
      LoginTimeoutOutcome.googleOAuthDetected
        "❌ 检测到重定向至 Google 登录页面。脚本不支持 Google OAuth 登录，请确保您的 Pella 账号已设置密码，并支持直接使用邮箱+密码登录。"
    else if strContains ("login") currentUrl then
      LoginTimeoutOutcome.stillOnLoginPage "❌ 登录失败，仍停留在登录页面"
    else LoginTimeoutOutcome.softSuccess
  match errEl with
  | some el =>
    if el.displayed then LoginTimeoutOutcome.errorMessage ("❌ 登录失败: " ++ el.text.trim)
    else urlCheck
  | none => urlCheck

/-- One credential pair, as loaded by `MultiAccountManager.load_accounts`. -/
structure Account where
  email : String
  password : String

/-- The body of the per-account loop of `MultiAccountManager.run_all`
(source lines 840–856): run the account, or turn a raised exception into a
failure entry for that account.  `runOne` abstracts
`PellaAutoRenew(email, password).run()` (`Except.error` = a raised
exception escaping `run`). -/
def outcomeEntry (runOne : Account → Except String (Bool × String))
    (a : Account) : String × Bool × String :=
  match runOne a with
  | Except.ok (s, r) => (a.email, s, r)
  | Except.error e => (a.email, false, "❌ 处理账号异常: " ++ e)

/-- The report built by `MultiAccountManager.run_all` (source lines 830–856):
one `(email, success, result)` entry appended per account, in input order. -/
def run_all (runOne : Account → Except String (Bool × String))
    (accounts : List Account) : List (String × Bool × String) :=
  accounts.map (outcomeEntry runOne)

/-- `email.split('@', 1)` when `'@' in email`: the part before the first `@`
and the part after it. -/
def splitAtFirstAt : List Char → Option (List Char × List Char)
  | [] => none
  | c :: cs =>
    if c = '@' then some ([], cs)
    else (splitAtFirstAt cs).map (fun p => (c :: p.1, p.2))

/-- Identity masking in `MultiAccountManager.send_notification` (source
lines 809–813), on characters: split at the first `@`, keep the first three
characters of the local part, append `***@` and the unmodified domain; with
no `@`, keep the first three characters and append `***`. -/
def maskEmailCore (cs : List Char) : List Char :=
  match splitAtFirstAt cs with
  | some p => p.1.take 3 ++ ("***@").toList ++ p.2
  | none => cs.take 3 ++ ("***").toList

/-- String-level identity masking of `send_notification`. -/
def maskEmail (email : String) : String :=
  String.mk (maskEmailCore email.toList)

/-- `result.split('\n')[0][:100]` (source line 815): first line of the
result message, truncated to at most 100 characters. -/
def shortResult (result : String) : String :=
  String.mk ((result.toList.takeWhile (fun c => c ≠ '\n')).take 100)

/-- The status icon chosen per account line (source lines 801–807). -/
def lineStatus (success : Bool) (result : String) : String :=
  if success && strContains ("续期成功") result then "✅"
  else if strContains ("未找到可点击") result then "⏳"
  else "❌"

/-- One per-account line of the notification message (source line 816). -/
def accountLine (email : String) (success : Bool) (result : String) : String :=
  lineStatus success result ++ " " ++ maskEmail email ++ ": " ++
    shortResult result ++ "\n"

/-- `success_count` of `send_notification` (source line 790): successful
accounts whose result message mentions the renew-success marker. -/
def successCount (results : List (String × Bool × String)) : Nat :=
  results.countP (fun r => r.2.1 && strContains ("续期成功") r.2.2)

/-- `already_done_count` of `send_notification` (source line 791):
successful accounts whose result message mentions the no-clickable-buttons
marker. -/
def alreadyDoneCount (results : List (String × Bool × String)) : Nat :=
  results.countP (fun r => r.2.1 && strContains ("未找到可点击") r.2.2)

/-- `failure_count` of `send_notification` (source line 792). -/
def failureCount (results : List (String × Bool × String)) : Nat :=
  results.countP (fun r => !r.2.1)

/-- The full notification summary string built by
`MultiAccountManager.send_notification` (source lines 795–816). -/
def notificationMessage (results : List (String × Bool × String)) : String :=
  let total := toString results.length
  let sc := toString (successCount results)
  let ac := toString (alreadyDoneCount results)
  let fc := toString (failureCount results)
  "🎁 Pella自动续期通知\n\n" ++
    "📋 共处理: " ++ total ++ " 个\n" ++
    "✅ 续期成功: " ++ sc ++ " 个\n" ++
    "⏳ 已续期: " ++ ac ++ " 个\n" ++
    "❌ 失败: " ++ fc ++ " 个\n\n" ++
    String.join (results.map (fun r => accountLine r.1 r.2.1 r.2.2))

/-- C2: the duration parser applies its five documented pattern families in
the documented precedence order with first match winning: the returned
state is determined by the earliest pattern in the order (1) case-sensitive
legacy `N D N H N M`, (2) case-insensitive `Expires in N H N M`, (3)
case-insensitive pluralization-tolerant `expiring in N Hours N Minutes`,
(4) case-insensitive `Expires in N D N H N M`, (5) `expires|expiring in N D`;
in particular a text matching both the pattern-1 and pattern-2 forms
resolves to pattern 1's result. -/
theorem extract_expiry_days_precedence :
    (∀ cs d h m, searchPat pat1At cs = some (d, h, m) →
      scanPatterns cs = (true, d, h, m)) ∧
    (∀ cs h m, searchPat pat1At cs = none →
      searchPat pat2At cs = some (h, m) → scanPatterns cs = (true, 0, h, m)) ∧
    (∀ cs h m, searchPat pat1At cs = none → searchPat pat2At cs = none →
      searchPat pat3At cs = some (h, m) → scanPatterns cs = (true, 0, h, m)) ∧
    (∀ cs d h m, searchPat pat1At cs = none → searchPat pat2At cs = none →
      searchPat pat3At cs = none → searchPat pat4At cs = some (d, h, m) →
      scanPatterns cs = (true, d, h, m)) ∧
    (∀ cs d, searchPat pat1At cs = none → searchPat pat2At cs = none →
      searchPat pat3At cs = none → searchPat pat4At cs = none →
      searchPat pat5At cs = some d → scanPatterns cs = (true, d, 0, 0)) ∧
    ((searchPat pat1At
        (("Your server expires in 1D 2H 3M Expires in 30H 3M").toList)).isSome = true ∧
     (searchPat pat2At
        (("Your server expires in 1D 2H 3M Expires in 30H 3M").toList)).isSome = true ∧
     extract_expiry_days ("Your server expires in 1D 2H 3M Expires in 30H 3M") =
       ("1 天 2 小时 3 分钟", 1 + 2 / 24 + 3 / 1440)) := by
  refine ⟨?_, ?_, ?_, ?_, ?_, ?_, ?_, ?_⟩
  · intro cs d h m h1
    simp [scanPatterns, h1]
  · intro cs h m h1 h2
    simp [scanPatterns, h1, h2]
  · intro cs h m h1 h2 h3
    simp [scanPatterns, h1, h2, h3]
  · intro cs d h m h1 h2 h3 h4
    simp [scanPatterns, h1, h2, h3, h4]
  · intro cs d h1 h2 h3 h4 h5
    simp [scanPatterns, h1, h2, h3, h4, h5]
  · decide
  · decide
  · have h : scanPatterns (("Your server expires in 1D 2H 3M Expires in 30H 3M").toList) =
        (true, 1, 2, 3) := by decide
    refine Prod.ext ?_ ?_
    · show (extractExpiryCore _).1 = _
      unfold extractExpiryCore
      rw [h]
      decide
    · show (extractExpiryCore _).2 = _
      unfold extractExpiryCore
      rw [h]
      norm_num

/-- C2 witness: the precedence theorem applied to the legacy-format sample
text, where pattern 1 matches with groups (14, 5, 30). -/
theorem extract_expiry_days_precedence_witness :
    scanPatterns (("Your server expires in 14D 5H 30M").toList) = (true, 14, 5, 30) :=
  extract_expiry_days_precedence.1 (("Your server expires in 14D 5H 30M").toList)
    14 5 30 (by decide)

/-- C3: whenever some pattern family matches, the parser returns
`totalDays = days + hours/24 + minutes/1440`, groups absent from the
matched pattern contributing 0 (pattern 2 has no day group, pattern 5 only
a day group), and the detail string concatenates only the non-zero
components with their unit labels. -/
theorem extract_expiry_days_total :
    (∀ cs d h m, scanPatterns cs = (true, d, h, m) →
      (extractExpiryCore cs).2 = (d : ℚ) + (h : ℚ) / 24 + (m : ℚ) / 1440 ∧
      (extractExpiryCore cs).1 =
        (if ((if 0 < d then [toString d ++ " 天"] else []) ++
             (if 0 < h then [toString h ++ " 小时"] else []) ++
             (if 0 < m then [toString m ++ " 分钟"] else [])) = [] then "0 分钟"
         else String.intercalate " "
           ((if 0 < d then [toString d ++ " 天"] else []) ++
            (if 0 < h then [toString h ++ " 小时"] else []) ++
            (if 0 < m then [toString m ++ " 分钟"] else [])))) ∧
    (∀ cs h m, searchPat pat1At cs = none → searchPat pat2At cs = some (h, m) →
      (extractExpiryCore cs).2 = (h : ℚ) / 24 + (m : ℚ) / 1440) ∧
    (∀ cs d, searchPat pat1At cs = none → searchPat pat2At cs = none →
      searchPat pat3At cs = none → searchPat pat4At cs = none →
      searchPat pat5At cs = some d → (extractExpiryCore cs).2 = (d : ℚ)) := by
  have key : ∀ cs d h m, scanPatterns cs = (true, d, h, m) →
      (extractExpiryCore cs).2 = (d : ℚ) + (h : ℚ) / 24 + (m : ℚ) / 1440 := by
    intro cs d h m hm
    unfold extractExpiryCore
    rw [hm]
    show (d : ℚ) + (h : ℚ) / 24 + (m : ℚ) / (24 * 60) = _
    norm_num
  refine ⟨?_, ?_, ?_⟩
  · intro cs d h m hm
    refine ⟨key cs d h m hm, ?_⟩
    unfold extractExpiryCore
    rw [hm]
  · intro cs h m h1 h2
    have hm : scanPatterns cs = (true, 0, h, m) := by simp [scanPatterns, h1, h2]
    rw [key cs 0 h m hm]
    norm_num
  · intro cs d h1 h2 h3 h4 h5
    have hm : scanPatterns cs = (true, d, 0, 0) := by
      simp [scanPatterns, h1, h2, h3, h4, h5]
    rw [key cs d 0 0 hm]
    norm_num

/-- C3 witness: the total-days formula applied to a pattern-2 text. -/
theorem extract_expiry_days_total_witness :
    (extractExpiryCore (("blah Expires in 30H 3M blah").toList)).2 =
      ((30 : Nat) : ℚ) / 24 + ((3 : Nat) : ℚ) / 1440 :=
  extract_expiry_days_total.2.1 (("blah Expires in 30H 3M blah").toList) 30 3
    (by decide) (by decide)

/-- C4: parse failure is distinguishable from a legitimate zero duration:
when no pattern family matches the parser returns the `-1` sentinel with
the could-not-extract detail, while a matched text never yields `-1` — in
particular an all-zero match yields the zero-minutes sentinel detail with
`totalDays = 0`. -/
theorem extract_expiry_days_sentinel :
    (∀ cs, searchPat pat1At cs = none → searchPat pat2At cs = none →
      searchPat pat3At cs = none → searchPat pat4At cs = none →
      searchPat pat5At cs = none → extractExpiryCore cs = ("无法提取", -1)) ∧
    (∀ cs d h m, scanPatterns cs = (true, d, h, m) →
      (extractExpiryCore cs).2 ≠ -1 ∧
      (d = 0 → h = 0 → m = 0 → extractExpiryCore cs = ("0 分钟", 0))) := by
  constructor
  · intro cs h1 h2 h3 h4 h5
    have hm : scanPatterns cs = (false, 0, 0, 0) := by
      simp [scanPatterns, h1, h2, h3, h4, h5]
    unfold extractExpiryCore
    rw [hm]
  · intro cs d h m hm
    constructor
    · unfold extractExpiryCore
      rw [hm]
      show (d : ℚ) + (h : ℚ) / 24 + (m : ℚ) / (24 * 60) ≠ -1
      intro hc
      have hnn : (0 : ℚ) ≤ (d : ℚ) + (h : ℚ) / 24 + (m : ℚ) / (24 * 60) := by positivity
      rw [hc] at hnn
      norm_num at hnn
    · intro hd hh hm0
      subst hd; subst hh; subst hm0
      unfold extractExpiryCore
      rw [hm]
      refine Prod.ext ?_ ?_
      · decide
      · show ((0 : Nat) : ℚ) + ((0 : Nat) : ℚ) / 24 + ((0 : Nat) : ℚ) / (24 * 60) = 0
        norm_num

/-- C4 witness: a text with no matching pattern yields the failure
sentinel, and an all-zero match yields the zero-minutes sentinel. -/
theorem extract_expiry_days_sentinel_witness :
    extractExpiryCore (("no duration here").toList) = ("无法提取", -1) ∧
    extractExpiryCore (("Expires in 0H 0M").toList) = ("0 分钟", 0) :=
  ⟨extract_expiry_days_sentinel.1 (("no duration here").toList)
      (by decide) (by decide) (by decide) (by decide) (by decide),
   (extract_expiry_days_sentinel.2 (("Expires in 0H 0M").toList) 0 0 0
      (by decide)).2 rfl rfl rfl⟩

/-- C1: post-renewal reconciliation produces exactly one of three distinct
outcomes: final strictly greater than initial → success message whose delta
is computed by seconds-based rounding (for initial totalDays 5 and final
totalDays 7.5 the reported delta is exactly "2 天 12 小时 0 分钟"); final
equal to initial → the distinct no-increase message; final less than
initial → the distinct anomaly message. -/
theorem renew_reconcile_outcomes :
    renewReconcile ("5 天") 5 ("7 天 12 小时") (15 / 2) =
      "✅ 续期成功! 初始 5 天 -> 最终 7 天 12 小时 (共续期 2 天 12 小时 0 分钟)" ∧
    (∀ d1 d2 : String, ∀ q : ℚ,
      renewReconcile d1 q d2 q = "⚠️ 续期操作完成，但天数未增加 (" ++ d2 ++ ")。") ∧
    (∀ d1 d2 : String, ∀ q1 q2 : ℚ, q2 < q1 →
      renewReconcile d1 q1 d2 q2 = "❌ 续期操作完成，但天数不升反降!") ∧
    renewReconcile ("5 天") 5 ("5 天") 5 ≠
      renewReconcile ("5 天") 5 ("7 天 12 小时") (15 / 2) ∧
    renewReconcile ("5 天") 5 ("4 天") 4 ≠ renewReconcile ("5 天") 5 ("5 天") 5 ∧
    renewReconcile ("5 天") 5 ("4 天") 4 ≠
      renewReconcile ("5 天") 5 ("7 天 12 小时") (15 / 2) := by
  have hlt : (5 : ℚ) < 15 / 2 := by norm_num
  have harg : ((15 : ℚ) / 2 - 5) * 24 * 3600 = ((216000 : ℤ) : ℚ) := by norm_num
  have hsec : pyRound (((15 : ℚ) / 2 - 5) * 24 * 3600) = 216000 := by
    unfold pyRound
    rw [harg, Int.floor_intCast]
    norm_num
  have hsucc : renewReconcile ("5 天") 5 ("7 天 12 小时") (15 / 2) =
      "✅ 续期成功! 初始 5 天 -> 最终 7 天 12 小时 (共续期 2 天 12 小时 0 分钟)" := by
    unfold renewReconcile
    rw [if_pos hlt]
    simp only [hsec]
    decide
  have hnoinc : ∀ d1 d2 : String, ∀ q : ℚ,
      renewReconcile d1 q d2 q = "⚠️ 续期操作完成，但天数未增加 (" ++ d2 ++ ")。" := by
    intro d1 d2 q
    unfold renewReconcile
    rw [if_neg (lt_irrefl q), if_pos rfl]
  have hanom : ∀ d1 d2 : String, ∀ q1 q2 : ℚ, q2 < q1 →
      renewReconcile d1 q1 d2 q2 = "❌ 续期操作完成，但天数不升反降!" := by
    intro d1 d2 q1 q2 h
    unfold renewReconcile
    rw [if_neg (not_lt.mpr h.le), if_neg (ne_of_lt h)]
  refine ⟨hsucc, hnoinc, hanom, ?_, ?_, ?_⟩
  · rw [hsucc, hnoinc]
    decide
  · rw [hnoinc, hanom ("5 天") ("4 天") 5 4 (by norm_num)]
    decide
  · rw [hsucc, hanom ("5 天") ("4 天") 5 4 (by norm_num)]
    decide

/-- C1 witness: the anomaly branch applied at a concrete decreased
duration. -/
theorem renew_reconcile_outcomes_witness :
    renewReconcile ("5 天") 5 ("4 天") 4 = "❌ 续期操作完成，但天数不升反降!" :=
  renew_reconcile_outcomes.2.2.1 ("5 天") ("4 天") 5 4 (by norm_num)

/-- C5: the locator resolver tries the candidates of a chain strictly in
order, each candidate receiving the full timeout; it returns the element of
the first successful candidate without attempting any later one (for a
3-candidate chain where only the 2nd resolves, the trace is exactly the
first two candidates), and it returns none rather than raising when every
candidate fails. -/
theorem find_element_chain_order :
    (∀ (α : Type) (resolve : Selector → Nat → Option α)
        (a b c : Selector) (t : Nat) (e : α),
      resolve a t = none → resolve b t = some e →
      find_element_with_multiple_selectors resolve [a, b, c] t =
        (some e, [(a, t), (b, t)])) ∧
    (∀ (α : Type) (resolve : Selector → Nat → Option α)
        (chain : List Selector) (t : Nat),
      (∀ s ∈ chain, resolve s t = none) →
      find_element_with_multiple_selectors resolve chain t =
        (none, chain.map (fun s => (s, t)))) := by
  constructor
  · intro α resolve a b c t e ha hb
    simp [find_element_with_multiple_selectors, ha, hb]
  · intro α resolve chain t hall
    induction chain with
    | nil => simp [find_element_with_multiple_selectors]
    | cons s rest ih =>
      have hs : resolve s t = none := hall s (List.mem_cons_self s rest)
      have hrest : ∀ x ∈ rest, resolve x t = none := by
        intro x hx
        exact hall x (List.mem_cons_of_mem s hx)
      simp [find_element_with_multiple_selectors, hs, ih hrest]

/-- C5 witness: a concrete 3-candidate chain where only the 2nd resolves. -/
theorem find_element_chain_order_witness :
    find_element_with_multiple_selectors
        (fun s _ => if s.2 = "b" then some 7 else none)
        [(LocBy.cssSelector, "a"), (LocBy.xpath, "b"), (LocBy.cssSelector, "c")]
        10 =
      (some 7, [((LocBy.cssSelector, "a"), 10), ((LocBy.xpath, "b"), 10)]) :=
  find_element_chain_order.1 Nat (fun s _ => if s.2 = "b" then some 7 else none)
    (LocBy.cssSelector, "a") (LocBy.xpath, "b") (LocBy.cssSelector, "c") 10 7
    (by decide) (by decide)

/-- C6: the batch report contains exactly one outcome per credential, in
input order, even when that account's run raises (the fault is captured as
a failure entry for that account, not dropped), and each account's entry
depends only on its own run, so a fault never affects another account's
outcome. -/
theorem run_all_report :
    ∀ (runOne : Account → Except String (Bool × String)) (accounts : List Account),
      (run_all runOne accounts).length = accounts.length ∧
      (∀ (i : Nat) (a : Account), accounts[i]? = some a →
        (run_all runOne accounts)[i]? = some (outcomeEntry runOne a)) ∧
      (∀ a e, runOne a = Except.error e →
        outcomeEntry runOne a = (a.email, false, "❌ 处理账号异常: " ++ e)) ∧
      (∀ (runTwo : Account → Except String (Bool × String)) a,
        runOne a = runTwo a → outcomeEntry runOne a = outcomeEntry runTwo a) := by
  intro runOne accounts
  refine ⟨?_, ?_, ?_, ?_⟩
  · simp [run_all]
  · intro i a h
    simp [run_all, List.getElem?_map, h]
  · intro a e h
    simp [outcomeEntry, h]
  · intro runTwo a h
    simp [outcomeEntry, h]

/-- C6 witness: three accounts where the 2nd's run raises — the report has
3 entries in input order and the 2nd entry is the captured failure. -/
theorem run_all_report_witness :
    (run_all
        (fun a => if a.email = "b@x.com" then Except.error "boom"
                  else Except.ok (true, "ok"))
        [⟨"a@x.com", "p1"⟩, ⟨"b@x.com", "p2"⟩, ⟨"c@x.com", "p3"⟩])[1]? =
      some ("b@x.com", false, "❌ 处理账号异常: boom") := by
  have h := (run_all_report
      (fun a => if a.email = "b@x.com" then Except.error "boom"
                else Except.ok (true, "ok"))
      [⟨"a@x.com", "p1"⟩, ⟨"b@x.com", "p2"⟩, ⟨"c@x.com", "p3"⟩]).2.1 1
      ⟨"b@x.com", "p2"⟩ rfl
  exact h.trans (by decide)

/-- C7: on a post-login URL-wait timeout, the login step resolves to
exactly one of four distinct outcomes, checked in this order: a visible
error element fails with its text; otherwise a Google-domain URL gives the
distinct unsupported-auth failure; otherwise a URL still containing the
login marker gives the distinct still-on-login failure; otherwise the login
is a soft success. -/
theorem login_timeout_outcomes :
    (∀ (el : ErrorElem) (url : String), el.displayed = true →
      handleLoginTimeout (some el) url =
        LoginTimeoutOutcome.errorMessage ("❌ 登录失败: " ++ el.text.trim)) ∧
    (∀ (el : ErrorElem) (url : String), el.displayed = false →
      handleLoginTimeout (some el) url = handleLoginTimeout none url) ∧
    (∀ url : String, strContains ("accounts.google.com") url = true →
      handleLoginTimeout none url =
        LoginTimeoutOutcome.googleOAuthDetected
          "❌ 检测到重定向至 Google 登录页面。脚本不支持 Google OAuth 登录，请确保您的 Pella 账号已设置密码，并支持直接使用邮箱+密码登录。") ∧
    (∀ url : String, strContains ("accounts.google.com") url = false →
      strContains ("login") url = true →
      handleLoginTimeout none url =
        LoginTimeoutOutcome.stillOnLoginPage "❌ 登录失败，仍停留在登录页面") ∧
    (∀ url : String, strContains ("accounts.google.com") url = false →
      strContains ("login") url = false →
      handleLoginTimeout none url = LoginTimeoutOutcome.softSuccess) := by
  refine ⟨?_, ?_, ?_, ?_, ?_⟩
  · intro el url h
    simp [handleLoginTimeout, h]
  · intro el url h
    simp [handleLoginTimeout, h]
  · intro url h
    simp [handleLoginTimeout, h]
  · intro url h1 h2
    simp [handleLoginTimeout, h1, h2]
  · intro url h1 h2
    simp [handleLoginTimeout, h1, h2]

/-- C7 witness: the four branches at concrete inputs — a displayed error
element wins over any URL; a Google URL; the login URL; an intermediate
page URL. -/
theorem login_timeout_outcomes_witness :
    handleLoginTimeout (some ⟨true, " Invalid password "⟩)
        "https://accounts.google.com/signin" =
      LoginTimeoutOutcome.errorMessage ("❌ 登录失败: " ++ (" Invalid password ").trim) ∧
    handleLoginTimeout none "https://accounts.google.com/signin" =
      LoginTimeoutOutcome.googleOAuthDetected
        "❌ 检测到重定向至 Google 登录页面。脚本不支持 Google OAuth 登录，请确保您的 Pella 账号已设置密码，并支持直接使用邮箱+密码登录。" ∧
    handleLoginTimeout none "https://www.pella.app/login" =
      LoginTimeoutOutcome.stillOnLoginPage "❌ 登录失败，仍停留在登录页面" ∧
    handleLoginTimeout none "https://www.pella.app/dashboard" =
      LoginTimeoutOutcome.softSuccess :=
  ⟨login_timeout_outcomes.1 ⟨true, " Invalid password "⟩
      "https://accounts.google.com/signin" rfl,
   login_timeout_outcomes.2.2.1 "https://accounts.google.com/signin" (by decide),
   login_timeout_outcomes.2.2.2.1 "https://www.pella.app/login"
     (by decide) (by decide),
   login_timeout_outcomes.2.2.2.2 "https://www.pella.app/dashboard"
     (by decide) (by decide)⟩

/-- C8 counterexample: `wait_for_element_clickable` does NOT return a
boolean false on an ordinary timeout — the underlying
`WebDriverWait.until` raises `TimeoutException` and the wrapper has no
handler, so the exception propagates to the caller. -/
theorem wait_clickable_raises_counterexample :
    wait_for_element_clickable (fun _ => false) 1 = Except.error WaitError.timeout := by
  rfl

/-- C8 (amended): the bare wait helpers propagate the timeout exception,
but at the exercised wait sites the exception is caught and converted into
a normal boolean outcome: the login URL-change wait returns true exactly
when the condition became true within the deadline, and false (not a
raise) otherwise. -/
theorem wait_timeout_conversion :
    (∀ (cond : Nat → Bool) (t : Nat), (∀ i, i ≤ t → cond i = false) →
      wait_for_element_clickable cond t = Except.error WaitError.timeout ∧
      wait_for_element_present cond t = Except.error WaitError.timeout) ∧
    (∀ (cond : Nat → Bool) (t : Nat),
      waitUrlChangeAfterEmailSubmit cond t = true ↔ ∃ i, i ≤ t ∧ cond i = true) := by
  have hfind : ∀ (cond : Nat → Bool) (t : Nat), (∀ i, i ≤ t → cond i = false) →
      (List.range (t + 1)).find? cond = none := by
    intro cond t h
    rw [List.find?_eq_none]
    intro x hx
    rw [List.mem_range] at hx
    simp [h x (Nat.lt_succ_iff.mp hx)]
  constructor
  · intro cond t h
    constructor
    · unfold wait_for_element_clickable webDriverWaitUntil
      rw [hfind cond t h]
    · unfold wait_for_element_present webDriverWaitUntil
      rw [hfind cond t h]
  · intro cond t
    unfold waitUrlChangeAfterEmailSubmit webDriverWaitUntil
    cases hf : (List.range (t + 1)).find? cond with
    | none =>
      rw [List.find?_eq_none] at hf
      simp only []
      constructor
      · intro h
        exact absurd h (by simp)
      · rintro ⟨i, hi, hc⟩
        exact absurd hc
          (by simpa using hf i (List.mem_range.mpr (Nat.lt_succ_of_le hi)))
    | some x =>
      have hcx : cond x = true := List.find?_some hf
      have hmx : x ∈ List.range (t + 1) := List.mem_of_find?_eq_some hf
      rw [List.mem_range] at hmx
      simp only []
      constructor
      · intro _
        exact ⟨x, Nat.lt_succ_iff.mp hmx, hcx⟩
      · intro _
        trivial

/-- C8 witness: the amended theorem at a concrete never-true condition and
a concrete condition becoming true at tick 1. -/
theorem wait_timeout_conversion_witness :
    wait_for_element_present (fun _ => false) 2 = Except.error WaitError.timeout ∧
    waitUrlChangeAfterEmailSubmit (fun i => i == 1) 3 = true :=
  ⟨(wait_timeout_conversion.1 (fun _ => false) 2 (fun _ _ => rfl)).2,
   (wait_timeout_conversion.2 (fun i => i == 1) 3).mpr ⟨1, by decide, by decide⟩⟩

/-- Splitting at the first `@` of `local ++ "@" ++ domain` recovers the
local part and domain when the local part has no `@`. -/
theorem splitAtFirstAt_append (l d : List Char) (hl : '@' ∉ l) :
    splitAtFirstAt (l ++ '@' :: d) = some (l, d) := by
  induction l with
  | nil => simp [splitAtFirstAt]
  | cons c cs ih =>
    have hc : ¬c = '@' := by
      intro h
      exact hl (by simp [h])
    have hcs : '@' ∉ cs := fun h => hl (List.mem_cons_of_mem c h)
    simp [splitAtFirstAt, hc, ih hcs]

/-- C9: every notification account line masks the identity by truncating
the local part to its first 3 characters followed by `***@` and the
unmodified domain (alice@example.com renders as ali***@example.com), and
the accompanying result text is the first line of the account's result
message truncated to at most 100 characters. -/
theorem notification_line_masking :
    maskEmail ("alice@example.com") = "ali***@example.com" ∧
    (∀ l d : List Char, '@' ∉ l →
      maskEmailCore (l ++ '@' :: d) = l.take 3 ++ ("***@").toList ++ d) ∧
    (∀ r : String, (shortResult r).length ≤ 100) ∧
    (∀ r : String, (shortResult r).toList =
      (r.toList.takeWhile (fun c => c ≠ '\n')).take 100) ∧
    (∀ (e : String) (s : Bool) (r : String),
      accountLine e s r =
        lineStatus s r ++ " " ++ maskEmail e ++ ": " ++ shortResult r ++ "\n") := by
  refine ⟨?_, ?_, ?_, ?_, ?_⟩
  · decide
  · intro l d hl
    simp [maskEmailCore, splitAtFirstAt_append l d hl]
  · intro r
    have hlen : (shortResult r).length =
        ((r.toList.takeWhile (fun c => c ≠ '\n')).take 100).length := rfl
    rw [hlen, List.length_take]
    exact min_le_left _ _
  · intro r
    rfl
  · intro e s r
    rfl

/-- C9 witness: the general masking shape applied to a concrete local part
and domain. -/
theorem notification_line_masking_witness :
    maskEmailCore (("bob").toList ++ '@' :: ("site.org").toList) =
      ("bob").toList.take 3 ++ ("***@").toList ++ ("site.org").toList :=
  notification_line_masking.2.1 (("bob").toList) (("site.org").toList) (by decide)

/-- C10: the notification's three outcome counts do not partition all
outcomes: a successful account whose message is the no-increase result of
the renewal reconciliation contains neither the renew-success marker nor
the no-clickable-buttons marker, so it is counted in none of the three
categories and the per-category counts sum to less than the reported
total. -/
theorem notification_counts_gap :
    successCount [("user@example.com", true, renewReconcile ("5 天") 5 ("5 天") 5)] +
        alreadyDoneCount
          [("user@example.com", true, renewReconcile ("5 天") 5 ("5 天") 5)] +
        failureCount
          [("user@example.com", true, renewReconcile ("5 天") 5 ("5 天") 5)] <
      [("user@example.com", true, renewReconcile ("5 天") 5 ("5 天") 5)].length := by
  have h : renewReconcile ("5 天") 5 ("5 天") 5 =
      "⚠️ 续期操作完成，但天数未增加 (5 天)。" := by
    unfold renewReconcile
    rw [if_neg (lt_irrefl (5 : ℚ)), if_pos rfl]
    decide
  rw [h]
  decide

end Pella
